import Mathlib

/-!
Shallow embedding of `src/song_splitter.py`, a thin orchestrator that
ensures separation prerequisites (demucs, torch, ffmpeg) and then runs
demucs as a subprocess on a user-supplied audio file.

Modelling choices:
* The ambient system state (interpreter path, `sys.argv`, package
  resolvability, `shutil.which`, pip exit codes, `subprocess.Popen`
  outcomes, file existence) is an explicit `Env` record.
* Observable side effects (printed lines, subprocess invocations,
  directory creation) are collected in an effect trace `List Effect`.
* Python exceptions crossing function boundaries (`SystemExit` from
  `sys.exit`, `CalledProcessError` from `subprocess.check_call`,
  `FileNotFoundError` from `Popen`, any other `Exception`) are modelled
  with `Except PyExc`.
* The filesystem directory state relevant to the program is a list of
  existing directory names, threaded through explicitly.
-/

namespace SongSplitter

/-- Result of `importlib.util.find_spec` on a package name: a spec was
found, the lookup returned `None`, or the lookup itself raised. -/
inductive SpecResult
  | found
  | absent
  | raises
deriving DecidableEq

/-- Outcome of a `subprocess.Popen` invocation: the interpreter could not
be started (`FileNotFoundError`), some other exception was raised, or a
child process ran, producing output lines and a return code. -/
inductive PopenOutcome
  | fileNotFound
  | otherError (msg : String)
  | proc (lines : List String) (returncode : Int)
deriving DecidableEq

/-- Python exceptions that can cross function boundaries in this program. -/
inductive PyExc
  | calledProcessError (cmd : List String) (code : Int)
  | systemExit (code : Int)
  | fileNotFoundError
  | otherException (msg : String)
deriving DecidableEq

/-- Observable side effects of a run: a printed line, an invocation of
`subprocess.Popen` / `subprocess.check_call` with a given argument list,
or creation of a directory that did not exist before. -/
inductive Effect
  | printed (s : String)
  | launch (cmd : List String)
  | mkdirCreate (dir : String)
deriving DecidableEq

/-- Ambient environment the program runs in. -/
structure Env where
  /-- `sys.executable` -/
  pythonExe : String
  /-- `sys.argv` of the process -/
  sysArgv : List String
  /-- behaviour of `importlib.util.find_spec` per package name -/
  findSpec : String → SpecResult
  /-- `shutil.which "ffmpeg"` -/
  whichFfmpeg : Option String
  /-- `Path(p).exists()` -/
  fileExists : String → Bool
  /-- exit code of a command run via `subprocess.check_call` -/
  pipExitCode : List String → Int
  /-- outcome of `subprocess.Popen` on a command -/
  popen : List String → PopenOutcome

/-- The subprocess invocations recorded in an effect trace, in order. -/
def launches : List Effect → List (List String)
  | [] => []
  | Effect.launch c :: es => c :: launches es
  | Effect.printed _ :: es => launches es
  | Effect.mkdirCreate _ :: es => launches es

/-- The printed lines recorded in an effect trace, in order. -/
def printedLines : List Effect → List String
  | [] => []
  | Effect.printed s :: es => s :: printedLines es
  | Effect.launch _ :: es => printedLines es
  | Effect.mkdirCreate _ :: es => printedLines es

/-- The directories actually created (not merely reused) in a trace. -/
def createdDirs : List Effect → List String
  | [] => []
  | Effect.mkdirCreate d :: es => d :: createdDirs es
  | Effect.printed _ :: es => createdDirs es
  | Effect.launch _ :: es => createdDirs es

/-- Usage line printed by `main` when no path argument is given. -/
def usageMsg : String := "Usage: python song_splitter.py <path_to_song.mp3>"

/-- Diagnostic printed by `main` when the input path does not exist. -/
def fileNotFoundMsg (p : String) : String := "File not found: " ++ p

/-- Progress line printed by `install_package`. -/
def installingMsg (package : String) : String := "Installing " ++ package ++ " ..."

/-- Progress line printed before the CPU-only torch install. -/
def torchInstallMsg : String := "Installing PyTorch (CPU version)..."

/-- Manual-install guidance printed when ffmpeg is not on the path. -/
def ffmpegMsgs : List String :=
  ["FFmpeg not found in PATH.",
   "Please install FFmpeg manually:",
   " - Windows: choco install ffmpeg  (or download from ffmpeg.org)",
   " - Linux: sudo apt install ffmpeg",
   " - macOS: brew install ffmpeg"]

/-- Line printed at the start of `separate_song`. -/
def splittingMsg (p : String) : String := "Splitting: " ++ p

/-- Success message printed when the demucs subprocess exits 0. -/
def doneMsg (outDir : String) : String :=
  "Done! Separated stems saved in: " ++ outDir

/-- Failure message printed when the demucs subprocess exits nonzero. -/
def demucsErrMsg : String := "Error during Demucs run. Please check above logs."

/-- Diagnostic printed when `Popen` raises `FileNotFoundError`. -/
def demucsLaunchFailMsg : String :=
  "Failed to run demucs. Is it installed and available as a module?"

/-- Diagnostic printed when any other exception is raised during separation. -/
def unexpectedErrMsg (m : String) : String :=
  "Unexpected error while running demucs: " ++ m

/-- `check_installed` from song_splitter.py: `find_spec` in a try block,
returning whether the result is non-None and `False` on any exception. -/
def check_installed (env : Env) (package : String) : Bool :=
  match env.findSpec package with
  | SpecResult.found => true
  | SpecResult.absent => false
  | SpecResult.raises => false

/-- The pip command built by `install_package`. -/
def pipInstallCmd (env : Env) (package : String) : List String :=
  [env.pythonExe, "-m", "pip", "install", package]

/-- `install_package`: prints a progress line and runs pip via
`subprocess.check_call`, which raises `CalledProcessError` when the
command exits nonzero. -/
def install_package (env : Env) (package : String) :
    List Effect × Except PyExc Unit :=
  let cmd := pipInstallCmd env package
  ([Effect.printed (installingMsg package), Effect.launch cmd],
   if env.pipExitCode cmd = 0 then Except.ok ()
   else Except.error (PyExc.calledProcessError cmd (env.pipExitCode cmd)))

/-- The CPU-only torch install command run directly by
`ensure_dependencies`. -/
def torchInstallCmd (env : Env) : List String :=
  [env.pythonExe, "-m", "pip", "install", "torch",
   "--index-url", "https://download.pytorch.org/whl/cpu"]

/-- `ensure_dependencies`: ensure demucs (installing if missing), ensure
torch (installing the CPU variant from the alternate index if missing),
then check ffmpeg on the path, printing guidance and calling
`sys.exit 1` if it is absent. -/
def ensure_dependencies (env : Env) : List Effect × Except PyExc Unit :=
  let step1 : List Effect × Except PyExc Unit :=
    if check_installed env "demucs" then ([], Except.ok ())
    else install_package env "demucs"
  match step1 with
  | (e1, Except.error e) => (e1, Except.error e)
  | (e1, Except.ok _) =>
    let step2 : List Effect × Except PyExc Unit :=
      if check_installed env "torch" then ([], Except.ok ())
      else
        ([Effect.printed torchInstallMsg, Effect.launch (torchInstallCmd env)],
         if env.pipExitCode (torchInstallCmd env) = 0 then Except.ok ()
         else Except.error
           (PyExc.calledProcessError (torchInstallCmd env)
             (env.pipExitCode (torchInstallCmd env))))
    match step2 with
    | (e2, Except.error e) => (e1 ++ e2, Except.error e)
    | (e2, Except.ok _) =>
      match env.whichFfmpeg with
      | some _ => (e1 ++ e2, Except.ok ())
      | none =>
        (e1 ++ e2 ++ ffmpegMsgs.map Effect.printed,
         Except.error (PyExc.systemExit 1))

/-- The fixed relative output directory name used by `separate_song`. -/
def outputDirName : String := "separated_stems"

/-- The demucs invocation built by `separate_song`. -/
def demucsCmd (env : Env) (songPath : String) : List String :=
  [env.pythonExe, "-m", "demucs", "-n", "htdemucs", "-o", outputDirName,
   songPath]

/-- `Path.mkdir` with `exist_ok=True`: creates the directory when missing
and does nothing (raising no error) when it already exists. -/
def mkdirExistOk (d : String) (dirs : List String) :
    List Effect × List String :=
  if d ∈ dirs then ([], dirs) else ([Effect.mkdirCreate d], d :: dirs)

/-- The try-block body of `separate_song`: `Popen` the demucs command,
stream its output lines, wait, and report by exit code. -/
def separate_song_try (env : Env) (songPath : String) :
    List Effect × Except PyExc Unit :=
  let cmd := demucsCmd env songPath
  match env.popen cmd with
  | PopenOutcome.fileNotFound =>
    ([Effect.launch cmd], Except.error PyExc.fileNotFoundError)
  | PopenOutcome.otherError m =>
    ([Effect.launch cmd], Except.error (PyExc.otherException m))
  | PopenOutcome.proc lines rc =>
    (Effect.launch cmd :: lines.map Effect.printed ++
      [Effect.printed (if rc = 0 then doneMsg outputDirName else demucsErrMsg)],
     Except.ok ())

/-- `separate_song`: create the output directory (idempotent), print the
splitting banner, run the try block, and handle `FileNotFoundError` and
every other `Exception` by printing a diagnostic (only `SystemExit`-like
exceptions, which the body never raises, would escape `except Exception`).
The `Except` component is what propagates to the caller. -/
def separate_song (env : Env) (dirs : List String) (songPath : String) :
    (List Effect × List String) × Except PyExc Unit :=
  let md := mkdirExistOk outputDirName dirs
  let pre := md.1 ++ [Effect.printed (splittingMsg songPath)]
  match separate_song_try env songPath with
  | (effs, Except.ok _) => ((pre ++ effs, md.2), Except.ok ())
  | (effs, Except.error PyExc.fileNotFoundError) =>
    ((pre ++ effs ++ [Effect.printed demucsLaunchFailMsg], md.2), Except.ok ())
  | (effs, Except.error (PyExc.otherException m)) =>
    ((pre ++ effs ++ [Effect.printed (unexpectedErrMsg m)], md.2), Except.ok ())
  | (effs, Except.error (PyExc.calledProcessError _ _)) =>
    ((pre ++ effs ++
        [Effect.printed (unexpectedErrMsg "CalledProcessError")], md.2),
     Except.ok ())
  | (effs, Except.error (PyExc.systemExit n)) =>
    ((pre ++ effs, md.2), Except.error (PyExc.systemExit n))

/-- The Python idiom `argv = argv or sys.argv`: both `None` and the empty
list (falsy) fall back to the process command line. -/
def resolve_argv (env : Env) (argv : Option (List String)) : List String :=
  match argv with
  | none => env.sysArgv
  | some a => if a = [] then env.sysArgv else a

/-- `main`: resolve argv, require a path argument (usage message and
return 1 otherwise), require the path to exist (diagnostic and return 1
otherwise), then run `ensure_dependencies` followed by `separate_song`
and return 0; exceptions from either step propagate. -/
def main (env : Env) (dirs : List String) (argvArg : Option (List String)) :
    (List Effect × List String) × Except PyExc Int :=
  let argv := resolve_argv env argvArg
  if argv.length < 2 then
    (([Effect.printed usageMsg], dirs), Except.ok 1)
  else
    let songPath := argv.getD 1 ""
    if env.fileExists songPath then
      match ensure_dependencies env with
      | (effs, Except.error e) => ((effs, dirs), Except.error e)
      | (effs, Except.ok _) =>
        match separate_song env dirs songPath with
        | ((effs2, dirs2), Except.ok _) =>
          ((effs ++ effs2, dirs2), Except.ok 0)
        | ((effs2, dirs2), Except.error e) =>
          ((effs ++ effs2, dirs2), Except.error e)
    else
      (([Effect.printed (fileNotFoundMsg songPath)], dirs), Except.ok 1)

/-- A Python termination that carries a nonzero status: an uncaught
`CalledProcessError` for a nonzero exit, or `sys.exit` with a nonzero
code. -/
def fatalNonzero : PyExc → Prop
  | PyExc.systemExit c => c ≠ 0
  | PyExc.calledProcessError _ c => c ≠ 0
  | PyExc.fileNotFoundError => False
  | PyExc.otherException _ => False

/-- Environment with the input file present and every prerequisite
available, whose demucs subprocess runs and exits 0. -/
def envAll : Env :=
  Env.mk "python3" ["song_splitter.py", "song.mp3"] (fun _ => SpecResult.found)
    (some "ffmpeg") (fun p => p == "song.mp3") (fun _ => 0)
    (fun _ => PopenOutcome.proc ["model loaded"] 0)

/-- Environment whose `Popen` raises `FileNotFoundError`. -/
def envPopenFNF : Env :=
  Env.mk "python3" ["song_splitter.py", "song.mp3"] (fun _ => SpecResult.found)
    (some "ffmpeg") (fun _ => true) (fun _ => 0)
    (fun _ => PopenOutcome.fileNotFound)

/-- Environment in which package resolution itself raises. -/
def envRaises : Env :=
  Env.mk "python3" ["song_splitter.py"] (fun _ => SpecResult.raises)
    (some "ffmpeg") (fun _ => false) (fun _ => 0)
    (fun _ => PopenOutcome.proc [] 0)

/-- Environment whose input path does not exist. -/
def envNoFile : Env :=
  Env.mk "python3" ["song_splitter.py", "missing.mp3"]
    (fun _ => SpecResult.found) (some "ffmpeg") (fun _ => false) (fun _ => 0)
    (fun _ => PopenOutcome.proc [] 0)

/-- Environment with ffmpeg absent from the path. -/
def envNoFfmpeg : Env :=
  Env.mk "python3" ["song_splitter.py", "song.mp3"] (fun _ => SpecResult.found)
    none (fun _ => true) (fun _ => 0) (fun _ => PopenOutcome.proc [] 0)

/-- Environment with no packages resolvable and pip exiting 1. -/
def envPipFail : Env :=
  Env.mk "python3" ["song_splitter.py", "song.mp3"]
    (fun _ => SpecResult.absent) (some "ffmpeg") (fun _ => true) (fun _ => 1)
    (fun _ => PopenOutcome.proc [] 0)

/-- Environment with no packages resolvable, installs succeeding, and
ffmpeg absent. -/
def envFresh : Env :=
  Env.mk "python3" ["song_splitter.py", "song.mp3"]
    (fun _ => SpecResult.absent) none (fun _ => true) (fun _ => 0)
    (fun _ => PopenOutcome.proc [] 0)

/-! ### Trace projection lemmas -/

@[simp]
theorem launches_nil : launches [] = [] := rfl

@[simp]
theorem launches_append (l1 l2 : List Effect) :
    launches (l1 ++ l2) = launches l1 ++ launches l2 := by
  induction l1 with
  | nil => rfl
  | cons e es ih => cases e <;> simp [launches, ih]

@[simp]
theorem launches_map_printed (ls : List String) :
    launches (ls.map Effect.printed) = [] := by
  induction ls with
  | nil => rfl
  | cons s ss ih => simp [launches, ih]

@[simp]
theorem printedLines_nil : printedLines [] = [] := rfl

@[simp]
theorem printedLines_append (l1 l2 : List Effect) :
    printedLines (l1 ++ l2) = printedLines l1 ++ printedLines l2 := by
  induction l1 with
  | nil => rfl
  | cons e es ih => cases e <;> simp [printedLines, ih]

@[simp]
theorem printedLines_map_printed (ls : List String) :
    printedLines (ls.map Effect.printed) = ls := by
  induction ls with
  | nil => rfl
  | cons s ss ih => simp [printedLines, ih]

@[simp]
theorem createdDirs_nil : createdDirs [] = [] := rfl

@[simp]
theorem createdDirs_append (l1 l2 : List Effect) :
    createdDirs (l1 ++ l2) = createdDirs l1 ++ createdDirs l2 := by
  induction l1 with
  | nil => rfl
  | cons e es ih => cases e <;> simp [createdDirs, ih]

@[simp]
theorem createdDirs_map_printed (ls : List String) :
    createdDirs (ls.map Effect.printed) = [] := by
  induction ls with
  | nil => rfl
  | cons s ss ih => simp [createdDirs, ih]

/-! ### Facts about separate_song -/

theorem separate_song_dirs (env : Env) (dirs : List String) (p : String) :
    (separate_song env dirs p).1.2 =
      if outputDirName ∈ dirs then dirs else outputDirName :: dirs := by
  by_cases hd : outputDirName ∈ dirs <;>
  cases h : env.popen (demucsCmd env p) <;>
  simp [separate_song, separate_song_try, mkdirExistOk, h, hd]

theorem separate_song_createdDirs (env : Env) (dirs : List String)
    (p : String) :
    createdDirs (separate_song env dirs p).1.1 =
      if outputDirName ∈ dirs then [] else [outputDirName] := by
  by_cases hd : outputDirName ∈ dirs <;>
  cases h : env.popen (demucsCmd env p) <;>
  simp [separate_song, separate_song_try, mkdirExistOk, h, hd, createdDirs]

theorem separate_song_no_raise (env : Env) (dirs : List String)
    (p : String) :
    (separate_song env dirs p).2 = Except.ok () := by
  by_cases hd : outputDirName ∈ dirs <;>
  cases h : env.popen (demucsCmd env p) <;>
  simp [separate_song, separate_song_try, mkdirExistOk, h, hd]

theorem launches_separate_song (env : Env) (dirs : List String)
    (p : String) :
    launches (separate_song env dirs p).1.1 = [demucsCmd env p] := by
  by_cases hd : outputDirName ∈ dirs <;>
  cases h : env.popen (demucsCmd env p) <;>
  simp [separate_song, separate_song_try, mkdirExistOk, h, hd, launches]

/-! ### Facts about ensure_dependencies and main -/

theorem ensure_dependencies_present (env : Env) (f : String)
    (hdem : check_installed env "demucs" = true)
    (htorch : check_installed env "torch" = true)
    (hff : env.whichFfmpeg = some f) :
    ensure_dependencies env = ([], Except.ok ()) := by
  simp [ensure_dependencies, hdem, htorch, hff]

theorem main_run (env : Env) (dirs : List String)
    (argvArg : Option (List String)) (effs : List Effect)
    (hnl : ¬ (resolve_argv env argvArg).length < 2)
    (hfile : env.fileExists ((resolve_argv env argvArg).getD 1 "") = true)
    (he : ensure_dependencies env = (effs, Except.ok ())) :
    main env dirs argvArg =
      ((effs ++
          (separate_song env dirs
            ((resolve_argv env argvArg).getD 1 "")).1.1,
        (separate_song env dirs
          ((resolve_argv env argvArg).getD 1 "")).1.2),
       Except.ok 0) := by
  have hs := separate_song_no_raise env dirs
    ((resolve_argv env argvArg).getD 1 "")
  rcases hsep : separate_song env dirs
      ((resolve_argv env argvArg).getD 1 "") with ⟨⟨e2, d2⟩, r⟩
  rw [hsep] at hs
  simp only at hs
  subst hs
  simp only [List.getD_eq_getElem?_getD] at hfile hsep
  simp [main, hnl, hfile, he, hsep]

theorem main_ensure_error (env : Env) (dirs : List String)
    (argvArg : Option (List String)) (effs : List Effect) (e : PyExc)
    (hnl : ¬ (resolve_argv env argvArg).length < 2)
    (hfile : env.fileExists ((resolve_argv env argvArg).getD 1 "") = true)
    (he : ensure_dependencies env = (effs, Except.error e)) :
    main env dirs argvArg = ((effs, dirs), Except.error e) := by
  simp only [List.getD_eq_getElem?_getD] at hfile
  simp [main, hnl, hfile, he]

theorem ensure_dependencies_ffmpeg_missing (env : Env)
    (hff : env.whichFfmpeg = none) :
    ∃ e, (ensure_dependencies env).2 = Except.error e ∧ fatalNonzero e := by
  by_cases h1 : check_installed env "demucs"
  · by_cases h2 : check_installed env "torch"
    · exact ⟨PyExc.systemExit 1,
        by simp [ensure_dependencies, h1, h2, hff], one_ne_zero⟩
    · by_cases h4 : env.pipExitCode (torchInstallCmd env) = 0
      · exact ⟨PyExc.systemExit 1,
          by simp [ensure_dependencies, h1, h2, h4, hff], one_ne_zero⟩
      · exact ⟨PyExc.calledProcessError (torchInstallCmd env)
            (env.pipExitCode (torchInstallCmd env)),
          by simp [ensure_dependencies, h1, h2, h4, hff], h4⟩
  · by_cases h3 : env.pipExitCode (pipInstallCmd env "demucs") = 0
    · by_cases h2 : check_installed env "torch"
      · exact ⟨PyExc.systemExit 1,
          by simp [ensure_dependencies, install_package, h1, h2, h3, hff],
          one_ne_zero⟩
      · by_cases h4 : env.pipExitCode (torchInstallCmd env) = 0
        · exact ⟨PyExc.systemExit 1,
            by simp [ensure_dependencies, install_package, h1, h2, h3, h4,
              hff],
            one_ne_zero⟩
        · exact ⟨PyExc.calledProcessError (torchInstallCmd env)
              (env.pipExitCode (torchInstallCmd env)),
            by simp [ensure_dependencies, install_package, h1, h2, h3, h4,
              hff],
            h4⟩
    · exact ⟨PyExc.calledProcessError (pipInstallCmd env "demucs")
          (env.pipExitCode (pipInstallCmd env "demucs")),
        by simp [ensure_dependencies, install_package, h1, h3], h3⟩

theorem demucs_not_in_ensure_launches (env : Env) (p : String) :
    demucsCmd env p ∉ launches (ensure_dependencies env).1 := by
  by_cases h1 : check_installed env "demucs" <;>
  by_cases h2 : check_installed env "torch" <;>
  by_cases h3 : env.pipExitCode (pipInstallCmd env "demucs") = 0 <;>
  by_cases h4 : env.pipExitCode (torchInstallCmd env) = 0 <;>
  cases hf : env.whichFfmpeg <;>
  simp [ensure_dependencies, install_package, h1, h2, h3, h4, hf,
    launches] <;>
  simp [pipInstallCmd, torchInstallCmd, demucsCmd]

/-! ### Claim theorems -/

/-- Claim C1: with the input file existing and all prerequisite tools
already present, `main` performs exactly one subprocess launch, whose
argument list is exactly the interpreter, `-m demucs`, `-n htdemucs`,
`-o separated_stems`, and the input path, in that order. -/
theorem main_single_demucs_launch (env : Env) (dirs : List String)
    (argvArg : Option (List String)) (f : String)
    (hlen : 2 ≤ (resolve_argv env argvArg).length)
    (hfile : env.fileExists ((resolve_argv env argvArg).getD 1 "") = true)
    (hdem : check_installed env "demucs" = true)
    (htorch : check_installed env "torch" = true)
    (hff : env.whichFfmpeg = some f) :
    launches (main env dirs argvArg).1.1 =
      [demucsCmd env ((resolve_argv env argvArg).getD 1 "")] ∧
    demucsCmd env ((resolve_argv env argvArg).getD 1 "") =
      [env.pythonExe, "-m", "demucs", "-n", "htdemucs", "-o",
       "separated_stems", (resolve_argv env argvArg).getD 1 ""] := by
  have he := ensure_dependencies_present env f hdem htorch hff
  have hm := main_run env dirs argvArg [] (Nat.not_lt.mpr hlen) hfile he
  rw [hm]
  exact ⟨by simp [launches_separate_song], rfl⟩

/-- Witness for C1 at a concrete fully-provisioned environment. -/
theorem main_single_demucs_launch_witness :
    launches (main envAll [] none).1.1 =
      [demucsCmd envAll ((resolve_argv envAll none).getD 1 "")] :=
  (main_single_demucs_launch envAll [] none "ffmpeg" (by decide) rfl rfl
    rfl rfl).1

/-- Claim C2: with no path argument or with a non-existent path, `main`
returns 1 after printing the usage message or the file-not-found
diagnostic respectively, launching no subprocess and creating no
directory. -/
theorem main_early_exit_no_effects (env : Env) (dirs : List String)
    (argvArg : Option (List String))
    (h : (resolve_argv env argvArg).length < 2 ∨
         env.fileExists ((resolve_argv env argvArg).getD 1 "") = false) :
    (main env dirs argvArg).2 = Except.ok 1 ∧
    launches (main env dirs argvArg).1.1 = [] ∧
    createdDirs (main env dirs argvArg).1.1 = [] ∧
    (main env dirs argvArg).1.2 = dirs ∧
    ((resolve_argv env argvArg).length < 2 →
      printedLines (main env dirs argvArg).1.1 = [usageMsg]) ∧
    (¬ (resolve_argv env argvArg).length < 2 →
      printedLines (main env dirs argvArg).1.1 =
        [fileNotFoundMsg ((resolve_argv env argvArg).getD 1 "")]) := by
  rcases h with h | h
  · simp [main, h, launches, createdDirs, printedLines]
  · by_cases hl : (resolve_argv env argvArg).length < 2
    · simp [main, hl, launches, createdDirs, printedLines]
    · simp only [List.getD_eq_getElem?_getD] at h ⊢
      simp [main, hl, h, launches, createdDirs, printedLines]

/-- Witness for C2 at a concrete environment whose input path is
missing. -/
theorem main_early_exit_no_effects_witness :
    (main envNoFile [] none).2 = Except.ok 1 ∧
    launches (main envNoFile [] none).1.1 = [] ∧
    createdDirs (main envNoFile [] none).1.1 = [] ∧
    (main envNoFile [] none).1.2 = [] :=
  ⟨(main_early_exit_no_effects envNoFile [] none (Or.inr rfl)).1,
   (main_early_exit_no_effects envNoFile [] none (Or.inr rfl)).2.1,
   (main_early_exit_no_effects envNoFile [] none (Or.inr rfl)).2.2.1,
   (main_early_exit_no_effects envNoFile [] none (Or.inr rfl)).2.2.2.1⟩

/-- Claim C3: with an existing input file and all prerequisites present,
`main` returns 0 whatever the demucs exit status: on status 0 a success
message is printed, on nonzero status a failure diagnostic is printed,
and the overall status is still 0. -/
theorem main_zero_regardless (env : Env) (dirs : List String)
    (argvArg : Option (List String)) (f : String) (lines : List String)
    (rc : Int)
    (hlen : 2 ≤ (resolve_argv env argvArg).length)
    (hfile : env.fileExists ((resolve_argv env argvArg).getD 1 "") = true)
    (hdem : check_installed env "demucs" = true)
    (htorch : check_installed env "torch" = true)
    (hff : env.whichFfmpeg = some f)
    (hpop : env.popen (demucsCmd env ((resolve_argv env argvArg).getD 1 ""))
      = PopenOutcome.proc lines rc) :
    (main env dirs argvArg).2 = Except.ok 0 ∧
    (rc = 0 →
      doneMsg outputDirName ∈ printedLines (main env dirs argvArg).1.1) ∧
    (rc ≠ 0 →
      demucsErrMsg ∈ printedLines (main env dirs argvArg).1.1) := by
  have he := ensure_dependencies_present env f hdem htorch hff
  have hm := main_run env dirs argvArg [] (Nat.not_lt.mpr hlen) hfile he
  rw [hm]
  simp only [List.getD_eq_getElem?_getD] at hpop
  refine ⟨rfl, fun h0 => ?_, fun hn => ?_⟩
  · by_cases hd : outputDirName ∈ dirs <;>
    simp [separate_song, separate_song_try, mkdirExistOk, hpop, hd, h0,
      printedLines]
  · by_cases hd : outputDirName ∈ dirs <;>
    simp [separate_song, separate_song_try, mkdirExistOk, hpop, hd, hn,
      printedLines]

/-- Witness for C3 at a concrete environment whose subprocess exits 0. -/
theorem main_zero_regardless_witness :
    (main envAll [] none).2 = Except.ok 0 ∧
    doneMsg outputDirName ∈ printedLines (main envAll [] none).1.1 :=
  ⟨(main_zero_regardless envAll [] none "ffmpeg" ["model loaded"] 0
      (by decide) rfl rfl rfl rfl rfl).1,
   (main_zero_regardless envAll [] none "ffmpeg" ["model loaded"] 0
      (by decide) rfl rfl rfl rfl rfl).2.1 rfl⟩

/-- Claim C4: in a run that reaches the prerequisite-ensure step with
the media decoder not resolvable on the path, the program terminates
with a nonzero status during that step — an exceptional exit, not the
entry point's normal return — and the demucs launch is never reached. -/
theorem missing_ffmpeg_fatal_before_launch (env : Env)
    (dirs : List String) (argvArg : Option (List String))
    (hff : env.whichFfmpeg = none)
    (hlen : 2 ≤ (resolve_argv env argvArg).length)
    (hfile : env.fileExists ((resolve_argv env argvArg).getD 1 "") = true) :
    (∃ e, (ensure_dependencies env).2 = Except.error e ∧ fatalNonzero e) ∧
    (∃ e, (main env dirs argvArg).2 = Except.error e ∧ fatalNonzero e) ∧
    demucsCmd env ((resolve_argv env argvArg).getD 1 "") ∉
      launches (main env dirs argvArg).1.1 := by
  obtain ⟨e, he, hfat⟩ := ensure_dependencies_ffmpeg_missing env hff
  rcases hE : ensure_dependencies env with ⟨effs, r⟩
  rw [hE] at he
  simp only at he
  subst he
  have hm := main_ensure_error env dirs argvArg effs e
    (Nat.not_lt.mpr hlen) hfile hE
  refine ⟨⟨e, by simp [hE], hfat⟩, ⟨e, by simp [hm], hfat⟩, ?_⟩
  rw [hm]
  have hnotin := demucs_not_in_ensure_launches env
    ((resolve_argv env argvArg).getD 1 "")
  rw [hE] at hnotin
  exact hnotin

/-- Witness for C4 at a concrete environment lacking ffmpeg. -/
theorem missing_ffmpeg_fatal_before_launch_witness :
    (∃ e, (main envNoFfmpeg [] none).2 = Except.error e ∧ fatalNonzero e) ∧
    demucsCmd envNoFfmpeg ((resolve_argv envNoFfmpeg none).getD 1 "") ∉
      launches (main envNoFfmpeg [] none).1.1 :=
  ⟨(missing_ffmpeg_fatal_before_launch envNoFfmpeg [] none rfl (by decide)
      rfl).2.1,
   (missing_ffmpeg_fatal_before_launch envNoFfmpeg [] none rfl (by decide)
      rfl).2.2⟩

/-- Claim C6: whenever a prerequisite install command exits nonzero, the
resulting `CalledProcessError` propagates uncaught out of
`ensure_dependencies` and terminates the program with a nonzero status;
the failing command is attempted exactly once (no swallowing, no
retry). -/
theorem install_failure_propagates (env : Env) (dirs : List String)
    (argvArg : Option (List String))
    (hlen : 2 ≤ (resolve_argv env argvArg).length)
    (hfile : env.fileExists ((resolve_argv env argvArg).getD 1 "") = true)
    (h : (check_installed env "demucs" = false ∧
            env.pipExitCode (pipInstallCmd env "demucs") ≠ 0) ∨
         (check_installed env "demucs" = true ∧
            check_installed env "torch" = false ∧
            env.pipExitCode (torchInstallCmd env) ≠ 0) ∨
         (check_installed env "demucs" = false ∧
            env.pipExitCode (pipInstallCmd env "demucs") = 0 ∧
            check_installed env "torch" = false ∧
            env.pipExitCode (torchInstallCmd env) ≠ 0)) :
    ∃ cmd, env.pipExitCode cmd ≠ 0 ∧
      (ensure_dependencies env).2 =
        Except.error
          (PyExc.calledProcessError cmd (env.pipExitCode cmd)) ∧
      (launches (ensure_dependencies env).1 = [cmd] ∨
        launches (ensure_dependencies env).1 =
          [pipInstallCmd env "demucs", cmd]) ∧
      (main env dirs argvArg).2 =
        Except.error
          (PyExc.calledProcessError cmd (env.pipExitCode cmd)) := by
  have hnl : ¬ (resolve_argv env argvArg).length < 2 := Nat.not_lt.mpr hlen
  rcases h with ⟨h1, h2⟩ | ⟨h1, h2, h3⟩ | ⟨h1, h2, h3, h4⟩
  · refine ⟨pipInstallCmd env "demucs", h2, ?_, ?_, ?_⟩
    · simp [ensure_dependencies, install_package, h1, h2]
    · left; simp [ensure_dependencies, install_package, h1, h2, launches]
    · have he : ensure_dependencies env =
          ([Effect.printed (installingMsg "demucs"),
            Effect.launch (pipInstallCmd env "demucs")],
           Except.error (PyExc.calledProcessError (pipInstallCmd env "demucs")
             (env.pipExitCode (pipInstallCmd env "demucs")))) := by
        simp [ensure_dependencies, install_package, h1, h2]
      rw [main_ensure_error env dirs argvArg _ _ hnl hfile he]
  · refine ⟨torchInstallCmd env, h3, ?_, ?_, ?_⟩
    · simp [ensure_dependencies, h1, h2, h3]
    · left; simp [ensure_dependencies, h1, h2, h3, launches]
    · have he : ensure_dependencies env =
          ([Effect.printed torchInstallMsg,
            Effect.launch (torchInstallCmd env)],
           Except.error (PyExc.calledProcessError (torchInstallCmd env)
             (env.pipExitCode (torchInstallCmd env)))) := by
        simp [ensure_dependencies, h1, h2, h3]
      rw [main_ensure_error env dirs argvArg _ _ hnl hfile he]
  · refine ⟨torchInstallCmd env, h4, ?_, ?_, ?_⟩
    · simp [ensure_dependencies, install_package, h1, h2, h3, h4]
    · right
      simp [ensure_dependencies, install_package, h1, h2, h3, h4, launches]
    · have he : ensure_dependencies env =
          ([Effect.printed (installingMsg "demucs"),
            Effect.launch (pipInstallCmd env "demucs"),
            Effect.printed torchInstallMsg,
            Effect.launch (torchInstallCmd env)],
           Except.error (PyExc.calledProcessError (torchInstallCmd env)
             (env.pipExitCode (torchInstallCmd env)))) := by
        simp [ensure_dependencies, install_package, h1, h2, h3, h4]
      rw [main_ensure_error env dirs argvArg _ _ hnl hfile he]

/-- Witness for C6 at a concrete environment where the demucs install
exits 1. -/
theorem install_failure_propagates_witness :
    ∃ cmd, envPipFail.pipExitCode cmd ≠ 0 ∧
      (ensure_dependencies envPipFail).2 =
        Except.error
          (PyExc.calledProcessError cmd (envPipFail.pipExitCode cmd)) ∧
      (launches (ensure_dependencies envPipFail).1 = [cmd] ∨
        launches (ensure_dependencies envPipFail).1 =
          [pipInstallCmd envPipFail "demucs", cmd]) ∧
      (main envPipFail [] none).2 =
        Except.error
          (PyExc.calledProcessError cmd (envPipFail.pipExitCode cmd)) :=
  install_failure_propagates envPipFail [] none (by decide) rfl
    (Or.inl ⟨rfl, by decide⟩)

/-- Claim C8: `ensure_dependencies` proceeds in a fixed order: first the
separation library check/install, then the CPU-only numerical-backend
check/install from the alternate index, and only then the decoder path
check — in a fresh environment the two pip launches happen in that
order and the ffmpeg guidance comes after both. -/
theorem ensure_dependencies_order (env : Env)
    (hdem : check_installed env "demucs" = false)
    (htorch : check_installed env "torch" = false)
    (hd0 : env.pipExitCode (pipInstallCmd env "demucs") = 0)
    (ht0 : env.pipExitCode (torchInstallCmd env) = 0)
    (hff : env.whichFfmpeg = none) :
    (ensure_dependencies env).1 =
      [Effect.printed (installingMsg "demucs"),
       Effect.launch (pipInstallCmd env "demucs"),
       Effect.printed torchInstallMsg,
       Effect.launch (torchInstallCmd env)] ++
        ffmpegMsgs.map Effect.printed ∧
    launches (ensure_dependencies env).1 =
      [pipInstallCmd env "demucs", torchInstallCmd env] ∧
    torchInstallCmd env =
      [env.pythonExe, "-m", "pip", "install", "torch", "--index-url",
       "https://download.pytorch.org/whl/cpu"] ∧
    (ensure_dependencies env).2 = Except.error (PyExc.systemExit 1) := by
  refine ⟨?_, ?_, rfl, ?_⟩ <;>
  simp [ensure_dependencies, install_package, hdem, htorch, hd0, ht0, hff,
    launches]

/-- Witness for C8 at a concrete fresh environment. -/
theorem ensure_dependencies_order_witness :
    launches (ensure_dependencies envFresh).1 =
      [pipInstallCmd envFresh "demucs", torchInstallCmd envFresh] :=
  (ensure_dependencies_order envFresh rfl rfl rfl rfl rfl).2.1

/-- Claim C9: calling the entry function with an empty argument list is
not treated as a usage error of the empty list; `argv or sys.argv` makes
it fall back to the process command line, so the run coincides with a
`None`-argument run and depends on the ambient `sys.argv`. -/
theorem main_empty_argv_falls_back (env : Env) (dirs : List String) :
    resolve_argv env (some []) = env.sysArgv ∧
    main env dirs (some []) = main env dirs none :=
  ⟨rfl, rfl⟩

/-- Claim C10: the tool-availability check is total: for every package
name it returns a boolean, `false` both when the package is not
resolvable and when the resolution lookup itself raises, and `true`
exactly when a spec is found. -/
theorem check_installed_total (env : Env) (package : String) :
    (env.findSpec package = SpecResult.absent →
      check_installed env package = false) ∧
    (env.findSpec package = SpecResult.raises →
      check_installed env package = false) ∧
    (env.findSpec package = SpecResult.found →
      check_installed env package = true) := by
  refine ⟨fun h => ?_, fun h => ?_, fun h => ?_⟩ <;>
    simp [check_installed, h]

/-- Claim C5: every exception raised during the separation operation —
`FileNotFoundError` at launch and any other unexpected exception — is
caught inside `separate_song`, a diagnostic is printed, and the function
returns normally; no exception propagates out. -/
theorem separate_song_swallows (env : Env) (dirs : List String)
    (p : String) :
    (separate_song env dirs p).2 = Except.ok () ∧
    (env.popen (demucsCmd env p) = PopenOutcome.fileNotFound →
      demucsLaunchFailMsg ∈ printedLines (separate_song env dirs p).1.1) ∧
    (∀ m, env.popen (demucsCmd env p) = PopenOutcome.otherError m →
      unexpectedErrMsg m ∈ printedLines (separate_song env dirs p).1.1) := by
  by_cases hd : outputDirName ∈ dirs <;>
  cases h : env.popen (demucsCmd env p) <;>
  simp [separate_song, separate_song_try, mkdirExistOk, h, hd, printedLines]

/-- Witness for C5 at a concrete environment whose `Popen` raises. -/
theorem separate_song_swallows_witness :
    (separate_song envPopenFNF [] "song.mp3").2 = Except.ok () ∧
    demucsLaunchFailMsg ∈
      printedLines (separate_song envPopenFNF [] "song.mp3").1.1 :=
  ⟨(separate_song_swallows envPopenFNF [] "song.mp3").1,
   (separate_song_swallows envPopenFNF [] "song.mp3").2.1 rfl⟩

/-- Claim C7: `separate_song` creates the fixed-name output directory if
it is missing, leaves the directory state untouched (raising no error)
if it already exists, and a repeated run leaves the state fixed. -/
theorem separate_song_mkdir_idempotent (env : Env) (dirs : List String)
    (p q : String) :
    outputDirName ∈ (separate_song env dirs p).1.2 ∧
    (outputDirName ∈ dirs →
      (separate_song env dirs p).1.2 = dirs ∧
      createdDirs (separate_song env dirs p).1.1 = []) ∧
    (outputDirName ∉ dirs →
      (separate_song env dirs p).1.2 = outputDirName :: dirs ∧
      createdDirs (separate_song env dirs p).1.1 = [outputDirName]) ∧
    (separate_song env ((separate_song env dirs p).1.2) q).1.2 =
      (separate_song env dirs p).1.2 := by
  have h1 := separate_song_dirs env dirs p
  have h2 := separate_song_createdDirs env dirs p
  have h3 := separate_song_dirs env ((separate_song env dirs p).1.2) q
  refine ⟨?_, fun hin => ?_, fun hout => ?_, ?_⟩
  · rw [h1]; by_cases hd : outputDirName ∈ dirs <;> simp [hd]
  · rw [h1, h2]; simp [hin]
  · rw [h1, h2]; simp [hout]
  · rw [h3, h1]
    by_cases hd : outputDirName ∈ dirs <;> simp [hd]

/-- Witness for C7: with the directory already present the state is
unchanged, and with it absent it is created. -/
theorem separate_song_mkdir_idempotent_witness :
    (separate_song envAll ["separated_stems"] "song.mp3").1.2 =
      ["separated_stems"] ∧
    (separate_song envAll [] "song.mp3").1.2 = ["separated_stems"] :=
  ⟨((separate_song_mkdir_idempotent envAll ["separated_stems"] "song.mp3"
      "song.mp3").2.1 (by decide)).1,
   ((separate_song_mkdir_idempotent envAll [] "song.mp3"
      "song.mp3").2.2.1 (by decide)).1⟩

/-- Witness for C10 at a concrete environment whose lookup raises. -/
theorem check_installed_total_witness :
    check_installed envRaises "torch" = false :=
  (check_installed_total envRaises "torch").2.1 rfl

end SongSplitter
